import Mathlib

/-!
Shallow embedding of the connection layer of a sqlite binding
(`src/connection.rs`): Connection lifecycle, busy-handler registration,
callback-based iteration, and the Select/Row/typed-extraction pipeline.
External collaborators (the engine's C calls, the dynamic Value type's
accessors, the error-lookup helper, Statement/Cursor) are modelled from the
specification's description of their interfaces.
-/

namespace Sqlite

/-- Modelled from the spec: the error type of the binding (declared outside
`src/connection.rs`): an optional native status code and an optional
human-readable message. -/
structure Error where
  code : Option Int
  message : Option String
  deriving DecidableEq, Repr

/-- The engine's success status code. -/
def SQLITE_OK : Int := 0

/-- The engine's status code reported when a row callback aborts execution. -/
def SQLITE_ABORT : Int := 4

/-- Modelled from the spec: `last_error` (declared outside
`src/connection.rs`), the error-code-to-message lookup: when the engine's
current error code is non-success, it yields an error carrying that code and
the engine's textual message when one is available. -/
def last_error (errcode : Int) (errmsg : Option String) : Option Error :=
  if errcode = SQLITE_OK then none else some { code := some errcode, message := errmsg }

/-- Modelled from the spec: the `ok!` status check with a connection argument
(declared outside `src/connection.rs`): a success code passes through; any
other code is turned into an error, preferring the engine's own
`last_error` description and falling back to the bare code with no message.
`lastErr` is the value `last_error` would report on this connection. -/
def okCheck (lastErr : Option Error) (code : Int) : Except Error Unit :=
  if code = SQLITE_OK then Except.ok ()
  else
    match lastErr with
    | some e => Except.error e
    | none => Except.error { code := some code, message := none }

/-- Carrier for a 64-bit float payload; the connection layer never inspects
it, it is only moved around, so it is kept as an abstract bit pattern. -/
structure F64 where
  bits : Nat
  deriving DecidableEq, Repr

/-- Modelled from the spec: the Typed Value collaborator, a closed tagged
union of Null, Integer, Float, Text and Blob. -/
inductive Value where
  | null : Value
  | integer (v : Int) : Value
  | float (v : F64) : Value
  | text (v : String) : Value
  | blob (v : List Nat) : Value
  deriving DecidableEq, Repr

/-- Modelled from the spec: read accessor of the Typed Value collaborator;
present exactly on the Integer tag. -/
def Value.as_integer : Value → Option Int
  | Value.integer i => some i
  | _ => none

/-- Modelled from the spec: read accessor; present exactly on the Float tag. -/
def Value.as_float : Value → Option F64
  | Value.float f => some f
  | _ => none

/-- Modelled from the spec: read accessor; present exactly on the Text tag. -/
def Value.as_string : Value → Option String
  | Value.text s => some s
  | _ => none

/-- Modelled from the spec: read accessor; present exactly on the Blob tag. -/
def Value.as_binary : Value → Option (List Nat)
  | Value.blob b => some b
  | _ => none

/-- The `ValueInto` trait of `src/connection.rs`: conversion from a dynamic
`Value` into a requested static type. -/
class ValueInto (α : Type) where
  try_convert_value_into : Value → Option α

/-- `impl ValueInto for Value`: identity (a clone of the value). -/
instance instValueIntoValue : ValueInto Value where
  try_convert_value_into v := some v

/-- `impl ValueInto for i64`: delegates to `Value::as_integer`. -/
instance instValueIntoInt : ValueInto Int where
  try_convert_value_into v := Value.as_integer v

/-- `impl ValueInto for f64`: delegates to `Value::as_float`. -/
instance instValueIntoF64 : ValueInto F64 where
  try_convert_value_into v := Value.as_float v

/-- `impl ValueInto for String`: delegates to `Value::as_string` and takes an
owned copy. -/
instance instValueIntoString : ValueInto String where
  try_convert_value_into v := (Value.as_string v).map (fun s => s)

/-- `impl ValueInto for Vec of u8`: delegates to `Value::as_binary` and takes
an owned copy. -/
instance instValueIntoBlob : ValueInto (List Nat) where
  try_convert_value_into v := (Value.as_binary v).map (fun b => b)

/-- `impl ValueInto for Option`: Null converts to the present-but-empty
case; anything else delegates to the inner type's conversion. -/
instance instValueIntoOption (α : Type) [ValueInto α] : ValueInto (Option α) where
  try_convert_value_into v :=
    match v with
    | Value.null => some none
    | v => (ValueInto.try_convert_value_into v).map some

/-- The typed extraction entry point: `extract T v` is
`T::try_convert_value_into(v)` with the requested type explicit. -/
def extract (α : Type) [ValueInto α] (v : Value) : Option α :=
  ValueInto.try_convert_value_into v

/-- Modelled from the spec: the Cursor collaborator, a one-directional
producer of result rows; embedded as the list of its remaining step
outcomes, each an engine error or a row of values; the empty list is the
exhausted cursor. -/
abbrev Cursor := List (Except Error (List Value))

/-- Modelled from the spec: `Cursor.next`, yielding an engine error, a row,
or exhaustion (`Ok None`), together with the advanced cursor. -/
def Cursor.next : Cursor → Except Error (Option (List Value)) × Cursor
  | [] => (Except.ok none, [])
  | Except.error e :: rest => (Except.error e, rest)
  | Except.ok r :: rest => (Except.ok (some r), rest)

/-- Modelled from the spec: the Statement collaborator, exposing only the
interface the core consumes: a column count, column names, and conversion
into a cursor. -/
structure Statement where
  columns : List String
  outcomes : List (Except Error (List Value))

/-- Modelled from the spec: `Statement.column_count`. -/
def Statement.column_count (st : Statement) : Nat :=
  st.columns.length

/-- Modelled from the spec: `Statement.column_name` at a position. -/
def Statement.column_name (st : Statement) (i : Nat) : String :=
  st.columns.getD i ""

/-- Modelled from the spec: `Statement.into_cursor`. -/
def Statement.into_cursor (st : Statement) : Cursor :=
  st.outcomes

/-- The column-name map of `Select`/`Row`: the `HashMap` of
`src/connection.rs` embedded as an association list where the most recent
insertion sits at the front (so lookup of the first match realises the
map's overwrite-on-duplicate-key semantics). -/
def hmLookup : List (String × Nat) → String → Option Nat
  | [], _ => none
  | (k, v) :: rest, s => if k = s then some v else hmLookup rest s

/-- A `Row` of `src/connection.rs`: an owned snapshot of one result row plus
the shared column-name-to-index map. -/
structure Row where
  row : List Value
  columns_map : List (String × Nat)
  deriving Repr

/-- The two implementors of `ColumnIndex` in `src/connection.rs`: a column
name or a zero-based position. -/
inductive ColumnIndex where
  | str (s : String) : ColumnIndex
  | idx (i : Nat) : ColumnIndex
  deriving DecidableEq, Repr

/-- `ColumnIndex::get_value`: name lookup through the row's column map then
vector indexing, or direct vector indexing. Both the map lookup on a missing
name and the vector access out of bounds panic in the source; `none` is the
panic outcome. -/
def ColumnIndex.get_value : ColumnIndex → Row → Option Value
  | ColumnIndex.str s, r => (hmLookup r.columns_map s).bind (fun i => r.row.get? i)
  | ColumnIndex.idx i, r => r.row.get? i

/-- The Debug rendering of a column selector used inside `try_get`'s error
message: a name is shown quoted, a position as its numeral. -/
def ColumnIndex.debugFmt : ColumnIndex → String
  | ColumnIndex.str s => "\"" ++ s ++ "\""
  | ColumnIndex.idx i => toString i

/-- Result of a row accessor once panics are made explicit: the source
either panics (map lookup or vector index out of range, or `unwrap` of an
error), returns the converted value, or returns a conversion error. -/
inductive RowOutcome (α : Type) where
  | panicked : RowOutcome α
  | ok (t : α) : RowOutcome α
  | err (e : Error) : RowOutcome α
  deriving DecidableEq, Repr

/-- `Row::try_get`: resolve the column to a value (panicking on an unknown
name or out-of-range position), then apply the typed conversion, turning a
conversion failure into an error naming the column. -/
def Row.try_get (α : Type) [ValueInto α] (c : ColumnIndex) (r : Row) : RowOutcome α :=
  match ColumnIndex.get_value c r with
  | none => RowOutcome.panicked
  | some v =>
    match ValueInto.try_convert_value_into v with
    | some t => RowOutcome.ok t
    | none =>
      RowOutcome.err
        { code := none
          message := some ("column " ++ ColumnIndex.debugFmt c ++ " could not be read") }

/-- `Row::get`: `try_get` followed by `unwrap`; `none` is the panic
outcome (either propagated from resolution or introduced by `unwrap`). -/
def Row.get (α : Type) [ValueInto α] (c : ColumnIndex) (r : Row) : Option α :=
  match Row.try_get α c r with
  | RowOutcome.ok t => some t
  | _ => none

/-- The `Select` of `src/connection.rs`: an optional live cursor, an
optional deferred construction error, and the column map. -/
structure Select where
  cursor : Option Cursor
  error : Option Error
  columns_map : List (String × Nat)

/-- `Select::create_columns_map`: pairs each column position with its name,
collected into the map (front insertion realises `HashMap` collection). -/
def Select.create_columns_map (st : Statement) : List (String × Nat) :=
  (List.range st.column_count).foldl (fun m i => (st.column_name i, i) :: m) []

/-- `Select::query`: build from the outcome of `Connection::prepare`; a
preparation error is deferred into the `error` field with no cursor. -/
def Select.query (prep : Except Error Statement) : Select :=
  match prep with
  | Except.ok st =>
    { error := none
      columns_map := Select.create_columns_map st
      cursor := some (Statement.into_cursor st) }
  | Except.error err => { cursor := none, error := some err, columns_map := [] }

/-- `Iterator::next` for `Select`: a pending error is taken (cleared) and
yielded first; otherwise the cursor is advanced; with neither, the sequence
yields nothing. -/
def Select.next (s : Select) : Option (Except Error Row) × Select :=
  match s.cursor, s.error with
  | c, some err =>
    (some (Except.error err), { cursor := c, error := none, columns_map := s.columns_map })
  | some cur, none =>
    match Cursor.next cur with
    | (Except.error err, cur2) =>
      (some (Except.error err),
        { cursor := some cur2, error := none, columns_map := s.columns_map })
    | (Except.ok none, cur2) =>
      (none, { cursor := some cur2, error := none, columns_map := s.columns_map })
    | (Except.ok (some row), cur2) =>
      (some (Except.ok { row := row, columns_map := s.columns_map }),
        { cursor := some cur2, error := none, columns_map := s.columns_map })
  | none, none => (none, s)

/-- Repeated advancing of a `Select`, discarding the yielded items. -/
def Select.advance (s : Select) : Nat → Select
  | 0 => s
  | n + 1 => (Select.next (Select.advance s n)).2

/-- Modelled from the spec: the engine-side busy-handler registration state
behind the raw handle: no handler, a custom callback (identified by the id
of the owning closure), or the implicit retry-until-timeout handler. -/
inductive EngineBusyHandler where
  | noHandler : EngineBusyHandler
  | custom (id : Nat) : EngineBusyHandler
  | timeoutHandler (ms : Int) : EngineBusyHandler
  deriving DecidableEq, Repr

/-- The `Connection` of `src/connection.rs`: the owned busy-callback closure
(identified by an id; `none` means no closure is owned) together with the
engine-side registration state carried by the raw handle. -/
structure Connection where
  busy_callback : Option Nat
  engine_handler : EngineBusyHandler
  deriving DecidableEq, Repr

/-- `Connection::open_with_flags`: `code` is the status the native open call
reports, `errcode`/`errmsg` the engine's current error state consulted by
`last_error`. The boolean records whether the partially-opened handle was
closed before returning. -/
def Connection.open_with_flags (code errcode : Int) (errmsg : Option String) :
    Except Error Connection × Bool :=
  if code = SQLITE_OK then
    (Except.ok { busy_callback := none, engine_handler := EngineBusyHandler.noHandler }, false)
  else
    match last_error errcode errmsg with
    | some e => (Except.error e, true)
    | none => (Except.error { code := some code, message := none }, true)

/-- `Connection::remove_busy_handler`: the stored closure is dropped first,
then the engine registration is cleared (the engine applies the clearing
exactly when the native call reports success, whose status is `code`), and
the status is checked last. -/
def Connection.remove_busy_handler (lastErr : Option Error) (code : Int) (c : Connection) :
    Except Error Unit × Connection :=
  let c1 : Connection := { c with busy_callback := none }
  let c2 : Connection :=
    if code = SQLITE_OK then { c1 with engine_handler := EngineBusyHandler.noHandler } else c1
  (okCheck lastErr code, c2)

/-- `Connection::set_busy_handler`: first `remove_busy_handler` (its error
propagates), then the native registration of the new callback `b` (the
engine confirms it exactly when `registerCode` is success), then the new
closure is stored unconditionally, and only then is `registerCode`
checked. -/
def Connection.set_busy_handler (lastErr : Option Error) (removeCode registerCode : Int)
    (b : Nat) (c : Connection) : Except Error Unit × Connection :=
  match Connection.remove_busy_handler lastErr removeCode c with
  | (Except.error e, c1) => (Except.error e, c1)
  | (Except.ok _, c1) =>
    let c2 : Connection :=
      if registerCode = SQLITE_OK then { c1 with engine_handler := EngineBusyHandler.custom b }
      else c1
    let c3 : Connection := { c2 with busy_callback := some b }
    (okCheck lastErr registerCode, c3)

/-- `Connection::set_busy_timeout`: delegates to the native timeout call
(which, on success, installs the implicit retry-until-timeout handler
engine-side) and checks its status; the stored closure is not touched. -/
def Connection.set_busy_timeout (lastErr : Option Error) (code ms : Int) (c : Connection) :
    Except Error Unit × Connection :=
  let c1 : Connection :=
    if code = SQLITE_OK then { c with engine_handler := EngineBusyHandler.timeoutHandler ms }
    else c
  (okCheck lastErr code, c1)

/-- `process_callback`: the exec trampoline of `src/connection.rs`; invokes
the caller's callback on one row of (name, optional text) pairs and
translates its boolean into the engine's continue/abort convention
(`0` continues, non-zero aborts). The callback is state-threaded to embed a
stateful `FnMut` closure. -/
def process_callback {σ : Type} (cb : σ → List (String × Option String) → Bool × σ)
    (s : σ) (r : List (String × Option String)) : Int × σ :=
  match cb s r with
  | (true, s2) => (0, s2)
  | (false, s2) => (1, s2)

/-- Modelled from the spec: the engine's `exec` loop consumed by `iterate`,
over the rows the statement produces. Each row is fed to the trampoline; a
zero return continues, and per the engine's documented interface a non-zero
return makes the loop stop at once and report `SQLITE_ABORT` without
invoking the callback again. Returns the status, the final callback state,
and the number of callback invocations. -/
def sqlite3_exec {σ : Type} (cb : σ → List (String × Option String) → Bool × σ) :
    σ → List (List (String × Option String)) → Int × σ × Nat
  | s, [] => (SQLITE_OK, s, 0)
  | s, r :: rs =>
    let p := process_callback cb s r
    if p.1 = 0 then
      let q := sqlite3_exec cb p.2 rs
      (q.1, q.2.1, q.2.2 + 1)
    else (SQLITE_ABORT, p.2, 1)

/-- `Connection::iterate`: run the engine's exec loop with the trampoline
over the rows `rows` the statement produces, then pass the resulting status
through the `ok!` check (`lastErr` is the connection's `last_error` state at
that point). Returns the call's result, the final callback state, and the
number of callback invocations. -/
def Connection.iterate {σ : Type} (rows : List (List (String × Option String)))
    (lastErr : Option Error) (cb : σ → List (String × Option String) → Bool × σ) (s : σ) :
    Except Error Unit × σ × Nat :=
  let q := sqlite3_exec cb s rows
  (okCheck lastErr q.1, q.2.1, q.2.2)

/-- A one-column sample row used to evaluate the accessors concretely. -/
def sampleRow : Row :=
  { row := [Value.integer 1], columns_map := [("a", 0)] }

/-- A sample connection owning busy-handler closure number 7, registered
engine-side. -/
def connA : Connection :=
  { busy_callback := some 7, engine_handler := EngineBusyHandler.custom 7 }

/-- Sample text row for the exec model. -/
def rowA : List (String × Option String) := [("a", some "1")]

/-- Sample text row for the exec model. -/
def rowB : List (String × Option String) := [("a", some "2")]

/-- Sample text row for the exec model. -/
def rowC : List (String × Option String) := [("a", some "3")]

/-- A callback that asks to stop on its very first invocation. -/
def cbFalse : Unit → List (String × Option String) → Bool × Unit :=
  fun _ _ => (false, ())

/-- A stateful callback counting its invocations that continues on the
first row and asks to stop on the second. -/
def cbSecondFalse : Nat → List (String × Option String) → Bool × Nat :=
  fun n _ => (n == 0, n + 1)

/-- A two-row result set for the exec model. -/
def rowsTwo : List (List (String × Option String)) := [rowA, rowB]

/-- A `Row` exactly as `Select` builds it: the values of one produced row
paired with the column map `Select::create_columns_map` computes for the
statement's column names. -/
def mkSelectRow (names : List String) (outs : List (Except Error (List Value)))
    (vs : List Value) : Row :=
  { row := vs
    columns_map := Select.create_columns_map { columns := names, outcomes := outs } }

/-- A one-column row holding a Text value, addressed either as "a" or as
position 0. -/
def rowTextA : Row :=
  mkSelectRow ["a"] [] [Value.text "x"]

end Sqlite

namespace Sqlite

theorem hmLookup_eq_of_mem (L : List (String × Nat)) (k : String) (v : Nat)
    (hnd : (L.map Prod.fst).Nodup) (hm : (k, v) ∈ L) : hmLookup L k = some v := by
  induction L with
  | nil => cases hm
  | cons p rest ih =>
    obtain ⟨k0, v0⟩ := p
    simp only [List.map_cons, List.nodup_cons] at hnd
    rcases List.mem_cons.mp hm with h | h
    · obtain ⟨rfl, rfl⟩ := Prod.mk.injEq .. ▸ h
      simp [hmLookup]
    · have hne : k0 ≠ k := by
        intro hkk
        exact hnd.1 (hkk ▸ List.mem_map_of_mem Prod.fst h)
      simp [hmLookup, hne, ih hnd.2 h]

theorem foldl_cons_eq {α β : Type} (f : α → β) (l : List α) (init : List β) :
    l.foldl (fun m i => f i :: m) init = (l.map f).reverse ++ init := by
  induction l generalizing init with
  | nil => simp
  | cons x xs ih => simp [List.foldl_cons, ih, List.append_assoc]

theorem range_map_getD (names : List String) :
    (List.range names.length).map (fun i => names.getD i "") = names := by
  apply List.ext_getElem
  · simp
  · intro i h1 h2
    simp [List.getD_eq_getElem?_getD, List.getElem?_eq_getElem h2]

theorem create_columns_map_eq (st : Statement) :
    Select.create_columns_map st =
      ((List.range st.columns.length).map (fun i => (st.columns.getD i "", i))).reverse := by
  unfold Select.create_columns_map Statement.column_count Statement.column_name
  rw [foldl_cons_eq]
  simp

theorem create_columns_map_keys (st : Statement) :
    (Select.create_columns_map st).map Prod.fst = st.columns.reverse := by
  rw [create_columns_map_eq, List.map_reverse, List.map_map]
  have h : (Prod.fst ∘ fun i => (st.columns.getD i "", i)) = fun i => st.columns.getD i "" := rfl
  rw [h, range_map_getD]

theorem hmLookup_create_columns_map (names : List String)
    (outs : List (Except Error (List Value))) (i : Nat)
    (hnd : names.Nodup) (hi : i < names.length) :
    hmLookup (Select.create_columns_map { columns := names, outcomes := outs })
      (names.get ⟨i, hi⟩) = some i := by
  apply hmLookup_eq_of_mem
  · rw [create_columns_map_keys]
    exact List.nodup_reverse.mpr hnd
  · rw [create_columns_map_eq]
    rw [List.mem_reverse, List.mem_map]
    exact ⟨i, List.mem_range.mpr hi, by simp [List.getD_eq_getElem?_getD,
      List.getElem?_eq_getElem hi]⟩

theorem sqlite3_exec_nil {σ : Type} (cb : σ → List (String × Option String) → Bool × σ)
    (s : σ) : sqlite3_exec cb s [] = (SQLITE_OK, s, 0) :=
  rfl

theorem sqlite3_exec_cons_true {σ : Type} (cb : σ → List (String × Option String) → Bool × σ)
    (s s2 : σ) (r : List (String × Option String)) (rs : List (List (String × Option String)))
    (h : cb s r = (true, s2)) :
    sqlite3_exec cb s (r :: rs) =
      ((sqlite3_exec cb s2 rs).1, (sqlite3_exec cb s2 rs).2.1, (sqlite3_exec cb s2 rs).2.2 + 1) := by
  simp [sqlite3_exec, process_callback, h]

theorem sqlite3_exec_cons_false {σ : Type} (cb : σ → List (String × Option String) → Bool × σ)
    (s s2 : σ) (r : List (String × Option String)) (rs : List (List (String × Option String)))
    (h : cb s r = (false, s2)) :
    sqlite3_exec cb s (r :: rs) = (SQLITE_ABORT, s2, 1) := by
  simp [sqlite3_exec, process_callback, h]

theorem sqlite3_exec_append_abort {σ : Type}
    (cb : σ → List (String × Option String) → Bool × σ)
    (pre : List (List (String × Option String))) :
    ∀ (s s2 : σ) (r : List (String × Option String))
      (post : List (List (String × Option String))),
      sqlite3_exec cb s pre = (SQLITE_OK, s2, pre.length) → (cb s2 r).1 = false →
      sqlite3_exec cb s (pre ++ r :: post) = (SQLITE_ABORT, (cb s2 r).2, pre.length + 1) := by
  induction pre with
  | nil =>
    intro s s2 r post hpre hfalse
    rw [sqlite3_exec_nil] at hpre
    have hs : s = s2 := congrArg (fun t => t.2.1) hpre
    subst hs
    rcases hcb : cb s r with ⟨b, s3⟩
    rw [hcb] at hfalse
    subst hfalse
    simp only [List.nil_append, List.length_nil, Nat.zero_add]
    rw [sqlite3_exec_cons_false cb s s3 r post hcb]
  | cons p ps ih =>
    intro s s2 r post hpre hfalse
    rcases hcb : cb s p with ⟨b, sA⟩
    cases b with
    | false =>
      rw [sqlite3_exec_cons_false cb s sA p ps hcb] at hpre
      simp [SQLITE_ABORT, SQLITE_OK, Prod.mk.injEq] at hpre
    | true =>
      rw [sqlite3_exec_cons_true cb s sA p ps hcb] at hpre
      rcases hq : sqlite3_exec cb sA ps with ⟨c1, q2⟩
      rcases q2 with ⟨sB, n1⟩
      rw [hq] at hpre
      simp only [Prod.mk.injEq, List.length_cons] at hpre
      obtain ⟨h1, h2, h3⟩ := hpre
      have hn : n1 = ps.length := by omega
      have hrec : sqlite3_exec cb sA ps = (SQLITE_OK, s2, ps.length) := by
        rw [hq, h1, h2, hn]
      have hmain := ih sA s2 r post hrec hfalse
      rw [List.cons_append, sqlite3_exec_cons_true cb s sA p (ps ++ r :: post) hcb, hmain]
      simp [List.length_cons]

/-- Claim C4: for each supported static type, the typed extraction is
present exactly when the value's tag is in that type's accepted-tag set —
`Value` accepts every tag as the identity, `i64` only Integer (yielding the
stored integer), `f64` only Float, `String` only Text, `Vec` of bytes only
Blob — and a tag mismatch is an absent result, never a substituted default. -/
theorem c4_extraction_table :
    (∀ v : Value, extract Value v = some v) ∧
    (∀ (v : Value) (i : Int), extract Int v = some i ↔ v = Value.integer i) ∧
    (∀ (v : Value) (f : F64), extract F64 v = some f ↔ v = Value.float f) ∧
    (∀ (v : Value) (s : String), extract String v = some s ↔ v = Value.text s) ∧
    (∀ (v : Value) (b : List Nat), extract (List Nat) v = some b ↔ v = Value.blob b) := by
  refine ⟨fun v => rfl, fun v i => ?_, fun v f => ?_, fun v s => ?_, fun v b => ?_⟩ <;>
    cases v <;>
      simp [extract, ValueInto.try_convert_value_into, instValueIntoInt, instValueIntoF64,
        instValueIntoString, instValueIntoBlob, Value.as_integer, Value.as_float,
        Value.as_string, Value.as_binary]

/-- Claim C5: extracting an optional type from Null is present-with-empty,
and from any non-Null value it is exactly the inner type's extraction
wrapped in the present case. -/
theorem c5_option_extraction (α : Type) [ValueInto α] (v : Value) (h : v ≠ Value.null) :
    extract (Option α) Value.null = some none ∧
    extract (Option α) v = (extract α v).map some := by
  refine ⟨rfl, ?_⟩
  cases v with
  | null => exact absurd rfl h
  | integer i => rfl
  | float f => rfl
  | text s => rfl
  | blob b => rfl

/-- Witness for C5 at the inner type `i64` and the value `Integer 3`. -/
theorem c5_option_extraction_witness :
    (Value.integer 3 ≠ Value.null) ∧
    (extract (Option Int) Value.null = some none ∧
      extract (Option Int) (Value.integer 3) = (extract Int (Value.integer 3)).map some) :=
  ⟨by decide, c5_option_extraction Int (Value.integer 3) (by decide)⟩

/-- Claim C7: a `Select` built from a failed preparation yields exactly one
`Err` carrying that deferred error on its first advance, and every later
advance yields nothing — the sequence is terminal with no reset. -/
theorem c7_deferred_error_terminal (e : Error) (n : Nat) :
    (Select.next (Select.query (Except.error e))).1 = some (Except.error e) ∧
    (Select.next (Select.advance (Select.next (Select.query (Except.error e))).2 n)).1 = none := by
  refine ⟨rfl, ?_⟩
  have hs : (Select.next (Select.query (Except.error e))).2 =
      { cursor := none, error := none, columns_map := [] } := rfl
  have hadv : ∀ m : Nat,
      Select.advance { cursor := none, error := none, columns_map := [] } m =
        { cursor := none, error := none, columns_map := [] } := by
    intro m
    induction m with
    | zero => rfl
    | succ k ih =>
      rw [Select.advance, ih]
      rfl
  rw [hs, hadv n]
  rfl

/-- Claim C8: when the native open call reports a non-success status, the
partially-opened handle is closed, no `Connection` is produced, and the
error carries a status code together with the engine's message exactly when
`last_error` can supply one. -/
theorem c8_open_failure (code errcode : Int) (errmsg : Option String) (h : code ≠ SQLITE_OK) :
    (Connection.open_with_flags code errcode errmsg).2 = true ∧
    (Connection.open_with_flags code errcode errmsg).1 =
      Except.error
        (if errcode = SQLITE_OK then { code := some code, message := none }
         else { code := some errcode, message := errmsg }) := by
  unfold Connection.open_with_flags last_error
  rw [if_neg h]
  by_cases hc : errcode = SQLITE_OK
  · simp [hc]
  · simp [hc]

/-- Witness for C8: open fails with status 14 and the engine supplies a
message. -/
theorem c8_open_failure_witness :
    ((14 : Int) ≠ SQLITE_OK) ∧
    ((Connection.open_with_flags 14 14 (some "unable to open database file")).2 = true ∧
      (Connection.open_with_flags 14 14 (some "unable to open database file")).1 =
        Except.error
          (if (14 : Int) = SQLITE_OK then { code := some 14, message := none }
           else { code := some 14, message := some "unable to open database file" })) :=
  ⟨by decide, c8_open_failure 14 14 (some "unable to open database file") (by decide)⟩

/-- Counterexample to claim C9: after a successful `set_busy_timeout`, the
connection still owns the previously stored busy-callback closure — it is
not released, contradicting the claim. -/
theorem c9_counterexample :
    ((Connection.set_busy_timeout none SQLITE_OK 100 connA).2).busy_callback = some 7 ∧
    (Connection.set_busy_timeout none SQLITE_OK 100 connA).1 = Except.ok () := by
  exact ⟨rfl, rfl⟩

/-- Claim C9 as amended: a successful `set_busy_timeout` installs the
implicit retry-until-timeout handler engine-side, so a previously
registered custom handler is never invoked again, but the stored closure is
left untouched — the connection keeps owning it. -/
theorem c9_amended (lastErr : Option Error) (ms : Int) (c : Connection) :
    (Connection.set_busy_timeout lastErr SQLITE_OK ms c).1 = Except.ok () ∧
    ((Connection.set_busy_timeout lastErr SQLITE_OK ms c).2).engine_handler =
      EngineBusyHandler.timeoutHandler ms ∧
    ((Connection.set_busy_timeout lastErr SQLITE_OK ms c).2).busy_callback =
      c.busy_callback := by
  unfold Connection.set_busy_timeout okCheck
  simp

/-- Counterexample to claim C3: with handler closure 7 active, registering
closure 2 while the native registration call fails (status 5) still removes
and releases closure 7 — the old handler is not kept on failure. -/
theorem c3_counterexample :
    (Connection.set_busy_handler none SQLITE_OK 5 2 connA).1 =
      Except.error { code := some 5, message := none } ∧
    ((Connection.set_busy_handler none SQLITE_OK 5 2 connA).2).busy_callback = some 2 := by
  exact ⟨rfl, rfl⟩

/-- Claim C3 as amended: `set_busy_handler` releases the old closure at the
start, before the new registration is attempted — the initial remove drops
it — and the old closure stays removed even when registering the new one
fails (the new closure is stored regardless); the engine-side registration
never points at the old handler afterwards, so it is not invoked again. -/
theorem c3_amended (c : Connection) (a b : Nat) (lastErr : Option Error) (registerCode : Int)
    (ha : c.busy_callback = some a) (hab : a ≠ b) :
    ((Connection.remove_busy_handler lastErr SQLITE_OK c).2).busy_callback = none ∧
    ((Connection.set_busy_handler lastErr SQLITE_OK registerCode b c).2).busy_callback =
      some b ∧
    ((Connection.set_busy_handler lastErr SQLITE_OK registerCode b c).2).engine_handler ≠
      EngineBusyHandler.custom a := by
  refine ⟨rfl, ?_, ?_⟩ <;>
    by_cases hr : registerCode = SQLITE_OK <;>
      simp [Connection.set_busy_handler, Connection.remove_busy_handler, okCheck, hr] <;>
        exact fun hcon => hab hcon.symm

/-- Witness for the amended C3 at a concrete connection and a failing
registration status. -/
theorem c3_amended_witness :
    (connA.busy_callback = some 7 ∧ (7 : Nat) ≠ 2) ∧
    (((Connection.remove_busy_handler none SQLITE_OK connA).2).busy_callback = none ∧
      ((Connection.set_busy_handler none SQLITE_OK 5 2 connA).2).busy_callback = some 2 ∧
      ((Connection.set_busy_handler none SQLITE_OK 5 2 connA).2).engine_handler ≠
        EngineBusyHandler.custom 7) :=
  ⟨⟨rfl, by decide⟩, c3_amended connA 7 2 none 5 rfl (by decide)⟩

/-- Claim C10: when the native registration call inside `set_busy_handler`
reports failure, the method returns `Err`, yet the stored busy-callback
state has already changed — the old closure was removed and the new one is
stored; registration is not atomic. -/
theorem c10_nonatomic_registration (c : Connection) (b : Nat) (lastErr : Option Error)
    (registerCode : Int) (h : registerCode ≠ SQLITE_OK) :
    (∃ e, (Connection.set_busy_handler lastErr SQLITE_OK registerCode b c).1 =
      Except.error e) ∧
    ((Connection.set_busy_handler lastErr SQLITE_OK registerCode b c).2).busy_callback =
      some b := by
  refine ⟨?_, rfl⟩
  cases lastErr with
  | none =>
    exact ⟨{ code := some registerCode, message := none }, by
      simp [Connection.set_busy_handler, Connection.remove_busy_handler, okCheck, h]⟩
  | some e =>
    exact ⟨e, by
      simp [Connection.set_busy_handler, Connection.remove_busy_handler, okCheck, h]⟩

/-- Witness for C10 at a concrete connection and a failing registration
status. -/
theorem c10_nonatomic_registration_witness :
    ((5 : Int) ≠ SQLITE_OK) ∧
    ((∃ e, (Connection.set_busy_handler none SQLITE_OK 5 2 connA).1 = Except.error e) ∧
      ((Connection.set_busy_handler none SQLITE_OK 5 2 connA).2).busy_callback = some 2) :=
  ⟨by decide, c10_nonatomic_registration connA 2 none 5 (by decide)⟩

/-- Counterexample to claim C1: a two-row result set whose callback asks to
stop on its first invocation; the callback runs once, but `iterate`
surfaces the early stop as an error carrying the engine's abort status
instead of returning success. -/
theorem c1_counterexample :
    (Connection.iterate rowsTwo none cbFalse ()).2.2 = 1 ∧
    (Connection.iterate rowsTwo none cbFalse ()).1 =
      Except.error { code := some SQLITE_ABORT, message := none } :=
  ⟨rfl, rfl⟩

/-- Claim C1 as amended: once the callback returns false on its
(`pre.length` + 1)-th invocation, it is invoked exactly that many times —
the rows after the refusing row are never processed — but `iterate` returns
`Err` built from the engine's abort status, not `Ok`. -/
theorem c1_amended {σ : Type} (cb : σ → List (String × Option String) → Bool × σ)
    (s s2 : σ) (pre post : List (List (String × Option String)))
    (r : List (String × Option String)) (lastErr : Option Error)
    (hpre : sqlite3_exec cb s pre = (SQLITE_OK, s2, pre.length))
    (hfalse : (cb s2 r).1 = false) :
    (Connection.iterate (pre ++ r :: post) lastErr cb s).2.2 = pre.length + 1 ∧
    (∃ err, (Connection.iterate (pre ++ r :: post) lastErr cb s).1 = Except.error err) := by
  have hexec := sqlite3_exec_append_abort cb pre s s2 r post hpre hfalse
  constructor
  · have h1 : (Connection.iterate (pre ++ r :: post) lastErr cb s).2.2 =
        (sqlite3_exec cb s (pre ++ r :: post)).2.2 := rfl
    rw [h1, hexec]
  · have h2 : (Connection.iterate (pre ++ r :: post) lastErr cb s).1 =
        okCheck lastErr (sqlite3_exec cb s (pre ++ r :: post)).1 := rfl
    rw [h2, hexec]
    show ∃ err, okCheck lastErr SQLITE_ABORT = Except.error err
    unfold okCheck
    rw [if_neg (by decide : ¬(SQLITE_ABORT = SQLITE_OK))]
    cases lastErr with
    | none => exact ⟨_, rfl⟩
    | some e => exact ⟨e, rfl⟩

/-- Witness for the amended C1: a counting callback that continues on the
first row and refuses on the second, over a three-row result set. -/
theorem c1_amended_witness :
    (sqlite3_exec cbSecondFalse 0 [rowA] = (SQLITE_OK, 1, [rowA].length)) ∧
    ((cbSecondFalse 1 rowB).1 = false) ∧
    ((Connection.iterate ([rowA] ++ rowB :: [rowC]) none cbSecondFalse 0).2.2 =
        [rowA].length + 1 ∧
      ∃ err, (Connection.iterate ([rowA] ++ rowB :: [rowC]) none cbSecondFalse 0).1 =
        Except.error err) :=
  ⟨rfl, rfl, c1_amended cbSecondFalse 0 1 [rowA] [rowC] rowB none rfl rfl⟩

/-- Counterexample to claim C2: `try_get` on a column name absent from the
row's column map does not produce a recoverable error naming the column —
it panics, exactly as `get` does. -/
theorem c2_counterexample :
    Row.try_get Int (ColumnIndex.str "nonexistent_column") sampleRow = RowOutcome.panicked ∧
    Row.get Int (ColumnIndex.str "nonexistent_column") sampleRow = none :=
  ⟨rfl, rfl⟩

/-- Claim C2 as amended: for a column name missing from the row's column
map, both `try_get` and `get` abort the operation (the map lookup panics) —
the error naming the offending column is produced only for conversion
failures on a resolvable column. -/
theorem c2_amended (r : Row) (s : String) (α : Type) [ValueInto α]
    (h : hmLookup r.columns_map s = none) :
    Row.try_get α (ColumnIndex.str s) r = RowOutcome.panicked ∧
    Row.get α (ColumnIndex.str s) r = none := by
  have hg : ColumnIndex.get_value (ColumnIndex.str s) r = none := by
    simp [ColumnIndex.get_value, h]
  refine ⟨?_, ?_⟩
  · simp [Row.try_get, hg]
  · simp [Row.get, Row.try_get, hg]

/-- Witness for the amended C2 at a concrete row and a name not among its
columns. -/
theorem c2_amended_witness :
    (hmLookup sampleRow.columns_map "nonexistent_column" = none) ∧
    (Row.try_get Int (ColumnIndex.str "nonexistent_column") sampleRow = RowOutcome.panicked ∧
      Row.get Int (ColumnIndex.str "nonexistent_column") sampleRow = none) :=
  ⟨by decide, c2_amended sampleRow "nonexistent_column" Int (by decide)⟩

/-- Counterexample to claim C6: when the requested static type does not
match the stored value, addressing the same column by name and by position
yields two different results — both are conversion errors, but their
messages name the column differently. -/
theorem c6_counterexample :
    Row.try_get Int (ColumnIndex.str "a") rowTextA =
      RowOutcome.err { code := none, message := some "column \"a\" could not be read" } ∧
    Row.try_get Int (ColumnIndex.idx 0) rowTextA =
      RowOutcome.err { code := none, message := some "column 0 could not be read" } ∧
    Row.try_get Int (ColumnIndex.str "a") rowTextA ≠
      Row.try_get Int (ColumnIndex.idx 0) rowTextA := by
  refine ⟨rfl, rfl, ?_⟩
  decide

/-- Claim C6 as amended: over distinct column names, addressing column i by
its name and by its position resolves to the same underlying value (which
exists), extraction succeeds by name exactly when it succeeds by position
with the same extracted value, and it fails by name exactly when it fails
by position — only the failure message differs, naming the column the way
it was addressed. -/
theorem c6_amended (α : Type) [ValueInto α] (names : List String)
    (outs : List (Except Error (List Value))) (vs : List Value) (i : Nat)
    (hnd : names.Nodup) (hlen : vs.length = names.length) (hi : i < names.length) :
    ColumnIndex.get_value (ColumnIndex.str (names.get ⟨i, hi⟩)) (mkSelectRow names outs vs) =
      ColumnIndex.get_value (ColumnIndex.idx i) (mkSelectRow names outs vs) ∧
    ColumnIndex.get_value (ColumnIndex.idx i) (mkSelectRow names outs vs) ≠ none ∧
    (∀ t : α,
      Row.try_get α (ColumnIndex.str (names.get ⟨i, hi⟩)) (mkSelectRow names outs vs) =
          RowOutcome.ok t ↔
        Row.try_get α (ColumnIndex.idx i) (mkSelectRow names outs vs) = RowOutcome.ok t) ∧
    ((∃ e, Row.try_get α (ColumnIndex.str (names.get ⟨i, hi⟩)) (mkSelectRow names outs vs) =
          RowOutcome.err e) ↔
      (∃ e, Row.try_get α (ColumnIndex.idx i) (mkSelectRow names outs vs) =
        RowOutcome.err e)) := by
  have hl : hmLookup (Select.create_columns_map { columns := names, outcomes := outs })
      (names.get ⟨i, hi⟩) = some i := hmLookup_create_columns_map names outs i hnd hi
  simp only [List.get_eq_getElem] at hl ⊢
  have hstr : ColumnIndex.get_value (ColumnIndex.str names[i])
      (mkSelectRow names outs vs) = vs.get? i := by
    show (hmLookup (Select.create_columns_map { columns := names, outcomes := outs })
        names[i]).bind (fun j => vs.get? j) = vs.get? i
    rw [hl]
    rfl
  have hidx : ColumnIndex.get_value (ColumnIndex.idx i) (mkSelectRow names outs vs) =
      vs.get? i := rfl
  have hsome : vs.get? i ≠ none := by
    intro hc
    rw [List.get?_eq_none] at hc
    omega
  rcases hv : vs.get? i with _ | v
  · exact absurd hv hsome
  · have hstr2 : ColumnIndex.get_value (ColumnIndex.str names[i])
        (mkSelectRow names outs vs) = some v := by rw [hstr, hv]
    have hidx2 : ColumnIndex.get_value (ColumnIndex.idx i) (mkSelectRow names outs vs) =
        some v := by rw [hidx, hv]
    refine ⟨by rw [hstr2, hidx2], by rw [hidx2]; exact Option.some_ne_none v, ?_, ?_⟩ <;>
      cases hconv : (ValueInto.try_convert_value_into v : Option α) with
      | none => simp [Row.try_get, hstr2, hidx2, hconv]
      | some u => simp [Row.try_get, hstr2, hidx2, hconv]

/-- Witness for the amended C6 at a concrete two-column row. -/
theorem c6_amended_witness :
    (["a", "b"].Nodup ∧ ([Value.integer 1, Value.text "x"] : List Value).length =
        ["a", "b"].length ∧ 0 < ["a", "b"].length) ∧
    (ColumnIndex.get_value (ColumnIndex.str (["a", "b"].get ⟨0, by decide⟩))
        (mkSelectRow ["a", "b"] [] [Value.integer 1, Value.text "x"]) =
      ColumnIndex.get_value (ColumnIndex.idx 0)
        (mkSelectRow ["a", "b"] [] [Value.integer 1, Value.text "x"]) ∧
    ColumnIndex.get_value (ColumnIndex.idx 0)
        (mkSelectRow ["a", "b"] [] [Value.integer 1, Value.text "x"]) ≠ none ∧
    (∀ t : Int,
      Row.try_get Int (ColumnIndex.str (["a", "b"].get ⟨0, by decide⟩))
          (mkSelectRow ["a", "b"] [] [Value.integer 1, Value.text "x"]) = RowOutcome.ok t ↔
        Row.try_get Int (ColumnIndex.idx 0)
          (mkSelectRow ["a", "b"] [] [Value.integer 1, Value.text "x"]) = RowOutcome.ok t) ∧
    ((∃ e, Row.try_get Int (ColumnIndex.str (["a", "b"].get ⟨0, by decide⟩))
          (mkSelectRow ["a", "b"] [] [Value.integer 1, Value.text "x"]) = RowOutcome.err e) ↔
      (∃ e, Row.try_get Int (ColumnIndex.idx 0)
          (mkSelectRow ["a", "b"] [] [Value.integer 1, Value.text "x"]) =
        RowOutcome.err e))) :=
  ⟨⟨by decide, by decide, by decide⟩,
    c6_amended Int ["a", "b"] [] [Value.integer 1, Value.text "x"] 0 (by decide) (by decide)
      (by decide)⟩

end Sqlite
